import Mathlib

/-!
Verification of the cookie-multiplexing middleware in zappa/middleware.py
(class ZappaWSGIMiddleware).  Python strings are modelled as lists of
characters, Python dicts as association lists with unique keys, raised
exceptions as error results, and the external library calls
(werkzeug.parse_cookie, base58.b58decode, json.loads, time.strptime,
time.gmtime) as explicit function parameters or inputs.  The middleware
runs under Python 2, where map is eager and dict.items returns a snapshot
list; the embedding follows those semantics.
-/

namespace ZappaMiddleware

/-- A Python string, as its list of characters. -/
abbrev Str := List Char

/-- A value held in the cookie jar: a Python string, or any non-string
value (e.g. produced by json.loads), kept opaquely with a tag. -/
inductive PyVal where
  | str (s : Str)
  | other (n : Nat)
deriving DecidableEq, Repr

/-- isinstance(value, basestring) test from the source. -/
def PyVal.isStr : PyVal → Bool
  | .str _ => true
  | .other _ => false

instance : Inhabited PyVal := ⟨PyVal.other 0⟩

/-- The request_cookies dict: cookie name to value. -/
abbrev Jar := List (Str × PyVal)

/-- A dict of parsed inbound cookies, name to string value. -/
abbrev StrDict := List (Str × Str)

/-- Python str.split(sep) for a one-character separator: every occurrence
splits, empty pieces are kept. -/
def splitOnChar (c : Char) : Str → List Str
  | [] => [[]]
  | x :: xs =>
    let r := splitOnChar c xs
    if x == c then [] :: r
    else
      match r with
      | [] => [[x]]
      | y :: ys => (x :: y) :: ys

/-- Python str.split(sep, 1): split at the first occurrence only; none
when the separator does not occur (indexing the split then fails). -/
def splitFirstAt (c : Char) : Str → Option (Str × Str)
  | [] => none
  | x :: xs =>
    if x == c then some ([], xs)
    else
      match splitFirstAt c xs with
      | none => none
      | some (a, b) => some (x :: a, b)

/-- Whitespace characters removed by Python str.strip(). -/
def isSpace (c : Char) : Bool :=
  c == ' ' || c == '\t' || c == '\n' || c == '\r' || c == Char.ofNat 11 || c == Char.ofNat 12

/-- Python str.strip(). -/
def strip (s : Str) : Str :=
  ((s.dropWhile isSpace).reverse.dropWhile isSpace).reverse

/-- ASCII lower-casing of one character, as str.lower() does per character. -/
def lowerChar (c : Char) : Char :=
  if 65 ≤ c.toNat ∧ c.toNat ≤ 90 then Char.ofNat (c.toNat + 32) else c

/-- Does pat occur at the start of s. -/
def startsWith : Str → Str → Bool
  | [], _ => true
  | _ :: _, [] => false
  | p :: ps, x :: xs => p == x && startsWith ps xs

/-- Python substring test (pat in s). -/
def containsSub (pat : Str) : Str → Bool
  | [] => pat.isEmpty
  | x :: xs => startsWith pat (x :: xs) || containsSub pat xs

/-- Python str.join over a list of strings. -/
def joinWith (sep : Str) : List Str → Str
  | [] => []
  | [x] => x
  | x :: y :: ys => x ++ sep ++ joinWith sep (y :: ys)

/-- Dict lookup (first matching key; keys of a Python dict are unique). -/
def dictGet : Jar → Str → Option PyVal
  | [], _ => none
  | e :: rest, k => if e.1 == k then some e.2 else dictGet rest k

/-- Dict lookup in a dict of strings. -/
def dictGetStr : StrDict → Str → Option Str
  | [], _ => none
  | e :: rest, k => if e.1 == k then some e.2 else dictGetStr rest k

/-- Python dict.update with a one-entry dict: replace the value in place
when the key is present, otherwise add the entry. -/
def dictUpdate : Jar → Str → PyVal → Jar
  | [], k, v => [(k, v)]
  | e :: rest, k, v => if e.1 == k then (k, v) :: rest else e :: dictUpdate rest k v

/-- del dict entry by key (the key is unique in a Python dict). -/
def eraseKey (j : Jar) (k : Str) : Jar :=
  j.filter (fun e => e.1 != k)

/-- Lines 58-62 of middleware.py: the whole request-side processing of
the __call__ method.  werkzeug.parse_cookie is external, so its result
(the parsed name-to-value dict of the inbound Cookie header) is the
input.  The code pops the key zappa and installs the remaining dict as
request_cookies and as the HTTP_COOKIE value the wrapped application
sees; nothing else happens to the request before the application runs. -/
def call_request_phase (parsed : StrDict) : StrDict :=
  parsed.filter (fun e => e.1 != "zappa".data)

/-- Lines 88-89 of middleware.py: the pass-through headers, every header
whose name is not Set-Cookie, in order. -/
def new_headers (headers : List (Str × Str)) : List (Str × Str) :=
  headers.filter (fun h => h.1 != "Set-Cookie".data)

/-- Lines 91-96 of middleware.py: the cookie_dicts list comprehension.
For each Set-Cookie header, the value is split at the first = into a
stripped name and the remaining directive string; a value with no =
raises an IndexError, modelled as an error result. -/
def cookie_dicts : List (Str × Str) → Except Unit (List (Str × Str))
  | [] => Except.ok []
  | h :: rest =>
    if h.1 == "Set-Cookie".data then
      match splitFirstAt '=' h.2 with
      | none => Except.error ()
      | some (a, b) =>
        match cookie_dicts rest with
        | Except.error e => Except.error e
        | Except.ok pairs => Except.ok ((strip a, b) :: pairs)
    else cookie_dicts rest

/-- Lines 77-101 of middleware.py: encode_response.  Computes the
pass-through headers, extracts the Set-Cookie directives, merges them
into request_cookies with map(self.request_cookies.update, cookie_dicts)
(eager in Python 2, in list order), and calls start_response with the
pass-through headers.  Returns the updated jar and the header list
handed to start_response. -/
def encode_response (jar : Jar) (headers : List (Str × Str)) :
    Except Unit (Jar × List (Str × Str)) :=
  match cookie_dicts headers with
  | Except.error e => Except.error e
  | Except.ok pairs =>
    Except.ok
      (pairs.foldl (fun j p => dictUpdate j p.1 (PyVal.str p.2)) jar,
       new_headers headers)

/-- The state of request_cookies after encode_response: on an exception
the dict is left as it was. -/
def jar_after_encode (jar : Jar) (headers : List (Str × Str)) : Jar :=
  match encode_response jar headers with
  | Except.ok r => r.1
  | Except.error _ => jar

/-- The cookie name a Set-Cookie directive value assigns, as the split in
lines 92-93 extracts it. -/
def directiveName (v : Str) : Option Str :=
  (splitFirstAt '=' v).map (fun p => strip p.1)

/-- The value set for name by the last directive pair naming it, in list
order; none when no pair names it. -/
def lastVal : List (Str × Str) → Str → Option Str
  | [], _ => none
  | p :: rest, n =>
    match lastVal rest n with
    | some v => some v
    | none => if p.1 == n then some p.2 else none

/-- Lines 103-109 of middleware.py: decode_zappa_cookie.  b58decode and
json.loads are external library calls, passed as parameters; the source
wraps neither in any exception handler, so their failures propagate.
Returns the pair of decoded_zappa and request_cookies it assigns. -/
def decode_zappa_cookie (b58decode : Str → Except Unit Str)
    (jsonLoads : Str → Except Unit Jar) (encoded : Str) :
    Except Unit (Str × Jar) :=
  match b58decode encoded with
  | Except.error e => Except.error e
  | Except.ok d =>
    match jsonLoads d with
    | Except.error e => Except.error e
    | Except.ok jar => Except.ok (d, jar)

/-- Exceptions the expiration scan can raise. -/
inductive CookieError where
  | valueError
  | indexError
deriving DecidableEq, Repr

/-- Lines 139-143 of middleware.py: time.strptime with the four-digit
year format, retried on ValueError with the two-digit year format; a
date neither format accepts raises ValueError out of the second call.
The two strptime format instances are external, passed as p4 and p2. -/
def parseExpiresDate (p4 p2 : Str → Option Int) (d : Str) : Except CookieError Int :=
  match p4 d with
  | some t => Except.ok t
  | none =>
    match p2 d with
    | some t => Except.ok t
    | none => Except.error CookieError.valueError

/-- Line 138 of middleware.py: the test for expires in kvp.lower(). -/
def containsExpires (s : Str) : Bool :=
  containsSub "expires".data (s.map lowerChar)

/-- Lines 135-144 of middleware.py: scan the split kvps of one cookie in
order; at the first stripped kvp containing expires, take the piece after
the first = (an kvp with no = raises IndexError), parse the date, and
yield it; later kvps are not examined. -/
def firstExpires (p4 p2 : Str → Option Int) : List Str → Except CookieError (Option Int)
  | [] => Except.ok none
  | kvp :: rest =>
    let k := strip kvp
    if containsExpires k then
      match (splitOnChar '=' k).get? 1 with
      | none => Except.error CookieError.indexError
      | some d => (parseExpiresDate p4 p2 d).map (fun t => some t)
    else firstExpires p4 p2 rest

/-- Lines 128-144 of middleware.py: what iter_cookies_expires does with
one entry.  Non-string values are skipped; the combined string
name=value with exactly one = (no attribute part) is skipped; otherwise
the kvps split on the semicolon are scanned for an expires date.  ok none
means the entry yields nothing. -/
def entryExpires (p4 p2 : Str → Option Int) (name : Str) (v : PyVal) :
    Except CookieError (Option Int) :=
  match v with
  | PyVal.other _ => Except.ok none
  | PyVal.str s =>
    let cookie := name ++ "=".data ++ s
    if (cookie.filter (fun c => c == '=')).length == 1 then Except.ok none
    else firstExpires p4 p2 (splitOnChar ';' cookie)

/-- Whether the filter loop deletes the entry: it yields a date and the
date is before now. -/
def shouldRemove (p4 p2 : Str → Option Int) (now : Int) (e : Str × PyVal) : Bool :=
  match entryExpires p4 p2 e.1 e.2 with
  | Except.ok (some t) => decide (t < now)
  | _ => false

/-- One step of the loop in lines 118-121 of middleware.py: once an
exception has been raised nothing further runs; otherwise the entry is
examined and deleted from the evolving dict when its date is before
now. -/
def filterStep (p4 p2 : Str → Option Int) (now : Int)
    (acc : Jar × Option CookieError) (e : Str × PyVal) : Jar × Option CookieError :=
  match acc.2 with
  | some err => (acc.1, some err)
  | none =>
    match entryExpires p4 p2 e.1 e.2 with
    | Except.error err => (acc.1, some err)
    | Except.ok none => (acc.1, none)
    | Except.ok (some t) => (if t < now then eraseKey acc.1 e.1 else acc.1, none)

/-- Lines 111-121 of middleware.py: filter_expired_cookies.  now comes
from the external time.gmtime and is a parameter; dict.items gives a
snapshot of the entries, so the loop runs over the original entry list
while deletions apply to the evolving dict.  Returns the dict state
after the loop together with the exception, if one was raised. -/
def filter_expired_cookies (p4 p2 : Str → Option Int) (now : Int) (jar : Jar) :
    Jar × Option CookieError :=
  jar.foldl (filterStep p4 p2 now) (jar, none)

/-- Lines 149-152 of middleware.py: the contribution of one entry to the
environ cookie string, the key=value piece for string values and nothing
for the entries the isinstance test skips. -/
def envEntry (e : Str × PyVal) : Option Str :=
  match e.2 with
  | PyVal.str v => some (e.1 ++ "=".data ++ v)
  | PyVal.other _ => none

/-- Lines 146-154 of middleware.py: cookie_environ_string, the semicolon
join of key=value for the string-valued entries only. -/
def cookie_environ_string (jar : Jar) : Str :=
  joinWith ";".data (jar.filterMap envEntry)

/-- Lines 66-71 of middleware.py: after the application call, when
redirect_content is truthy every chunk of the response is replaced by
it, and the slot is then set back to None unconditionally.  Returns the
response body and the new slot value. -/
def apply_redirect (rc : Option Str) (response : List Str) :
    List Str × Option Str :=
  match rc with
  | none => (response, none)
  | some c => (if c.isEmpty then response else response.map (fun _ => c), none)

/-- Whether an exception-or-value result is a value. -/
def exOk : Except CookieError (Option Int) → Bool
  | Except.ok _ => true
  | Except.error _ => false

theorem dictGet_dictUpdate_eq (j : Jar) (k : Str) (v : PyVal) :
    dictGet (dictUpdate j k v) k = some v := by
  induction j with
  | nil => simp [dictUpdate, dictGet]
  | cons e rest ih =>
    cases he : (e.1 == k) with
    | true => simp [dictUpdate, he, dictGet]
    | false => simp [dictUpdate, he, dictGet, ih]

theorem dictGet_dictUpdate_ne (j : Jar) (k : Str) (v : PyVal) (n : Str) (h : k ≠ n) :
    dictGet (dictUpdate j k v) n = dictGet j n := by
  induction j with
  | nil => simp [dictUpdate, dictGet, h]
  | cons e rest ih =>
    cases he : (e.1 == k) with
    | true =>
      have hek : e.1 = k := by simpa using he
      simp [dictUpdate, he, dictGet, hek, h]
    | false => simp [dictUpdate, he, dictGet, ih]

theorem dictGet_foldl_update (pairs : List (Str × Str)) :
    ∀ (jar : Jar) (n : Str),
      dictGet (pairs.foldl (fun j p => dictUpdate j p.1 (PyVal.str p.2)) jar) n =
        (match lastVal pairs n with
         | some v => some (PyVal.str v)
         | none => dictGet jar n) := by
  induction pairs with
  | nil => intro jar n; simp [lastVal]
  | cons p rest ih =>
    intro jar n
    rw [List.foldl_cons, ih]
    cases hl : lastVal rest n with
    | some v => simp [lastVal, hl]
    | none =>
      simp only [lastVal, hl]
      cases hp : (p.1 == n) with
      | true =>
        have hpn : p.1 = n := by simpa using hp
        simp [hpn, dictGet_dictUpdate_eq]
      | false =>
        have hpn : p.1 ≠ n := by simpa using hp
        simp [hp, dictGet_dictUpdate_ne jar p.1 (PyVal.str p.2) n hpn]

theorem lastVal_eq_none (pairs : List (Str × Str)) (n : Str)
    (h : ∀ p ∈ pairs, p.1 ≠ n) : lastVal pairs n = none := by
  induction pairs with
  | nil => rfl
  | cons p rest ih =>
    have hp : p.1 ≠ n := h p (by simp)
    have hr := ih (fun q hq => h q (by simp [hq]))
    simp [lastVal, hr, hp]

theorem cookie_dicts_names (headers : List (Str × Str)) :
    ∀ (pairs : List (Str × Str)), cookie_dicts headers = Except.ok pairs →
      ∀ p ∈ pairs, ∃ h, h ∈ headers ∧ h.1 = "Set-Cookie".data ∧
        directiveName h.2 = some p.1 := by
  induction headers with
  | nil =>
    intro pairs hcd
    simp only [cookie_dicts, Except.ok.injEq] at hcd
    subst hcd; simp
  | cons hd rest ih =>
    intro pairs hcd
    by_cases hsc : hd.1 = "Set-Cookie".data
    · simp only [cookie_dicts, hsc, beq_self_eq_true, if_true] at hcd
      cases hsplit : splitFirstAt '=' hd.2 with
      | none => rw [hsplit] at hcd; cases hcd
      | some ab =>
        obtain ⟨a, b⟩ := ab
        rw [hsplit] at hcd
        cases hrest : cookie_dicts rest with
        | error e => rw [hrest] at hcd; cases hcd
        | ok ps =>
          rw [hrest] at hcd
          simp only [Except.ok.injEq] at hcd
          subst hcd
          intro p hp
          rcases List.mem_cons.mp hp with rfl | hps
          · exact ⟨hd, List.mem_cons_self hd rest, hsc,
              by simp [directiveName, hsplit]⟩
          · obtain ⟨h, hh, h1, h2⟩ := ih ps hrest p hps
            exact ⟨h, List.mem_cons_of_mem hd hh, h1, h2⟩
    · have hb : (hd.1 == "Set-Cookie".data) = false := by
        simpa using hsc
      simp only [cookie_dicts, hb, Bool.false_eq_true, if_false] at hcd
      intro p hp
      obtain ⟨h, hh, h1, h2⟩ := ih pairs hcd p hp
      exact ⟨h, List.mem_cons_of_mem hd hh, h1, h2⟩

/-- Claim C1 (code bug witness evaluation): encode_response strips every
application Set-Cookie header and hands start_response only the
pass-through headers; no aggregate Set-Cookie header carrying the packed
jar is appended, although its docstring says the cookies are packed into
a single ZappaCookie. -/
theorem c1_encode_response_emits_no_set_cookie :
    encode_response [("a".data, PyVal.str "1".data)]
      [("Content-Type".data, "text/html".data), ("Set-Cookie".data, "x=2".data)]
      = Except.ok
          ([("a".data, PyVal.str "1".data), ("x".data, PyVal.str "2".data)],
           [("Content-Type".data, "text/html".data)]) := rfl

/-- Claim C2 (code bug witness evaluation): the request phase of __call__
only pops the key zappa from the parsed cookie dict and passes the rest
through verbatim; the aggregate payload is discarded undecoded and no
expiration pruning runs, although the docstring of __call__ says the
zappa cookie is unpacked and cookies filtered on expiration. -/
theorem c2_call_passes_aggregate_payload_undecoded :
    call_request_phase [("zappa".data, "3xkzSRMb".data), ("a".data, "1".data)]
      = [("a".data, "1".data)] := rfl

/-- Claim C6 counterexample: decoding a malformed aggregate payload is
not recovered into an empty jar; the decode error surfaces to the
caller (at the modelled malformed input both external decoders fail). -/
theorem c6_counterexample :
    decode_zappa_cookie (fun _ => Except.error ()) (fun _ => Except.error ()) "!!".data
      = Except.error () := rfl

/-- Claim C6 as amended: decode_zappa_cookie runs base58 decode then the
JSON parse with no exception handler, so a failure of either step
propagates to the caller unchanged, and on success the decoded string
and parsed jar are stored. -/
theorem c6_amended_decode_propagates (b58 : Str → Except Unit Str)
    (js : Str → Except Unit Jar) (enc : Str) :
    (b58 enc = Except.error () → decode_zappa_cookie b58 js enc = Except.error ()) ∧
    (∀ d, b58 enc = Except.ok d → js d = Except.error () →
      decode_zappa_cookie b58 js enc = Except.error ()) ∧
    (∀ d jar, b58 enc = Except.ok d → js d = Except.ok jar →
      decode_zappa_cookie b58 js enc = Except.ok (d, jar)) := by
  refine ⟨fun h => ?_, fun d h1 h2 => ?_, fun d jar h1 h2 => ?_⟩
  · simp [decode_zappa_cookie, h]
  · simp [decode_zappa_cookie, h1, h2]
  · simp [decode_zappa_cookie, h1, h2]

/-- Witness for the amended C6 at a concrete successful input. -/
theorem c6_witness :
    decode_zappa_cookie (fun s => Except.ok s) (fun _ => Except.ok []) "E".data
      = Except.ok ("E".data, []) :=
  (c6_amended_decode_propagates (fun s => Except.ok s) (fun _ => Except.ok [])
    "E".data).2.2 "E".data [] rfl rfl

/-- Claim C7: when several Set-Cookie headers of one response assign the
same name, the merged jar holds the value of the last directive pair for
that name, in header order. -/
theorem c7_last_write_wins (jar : Jar) (headers : List (Str × Str))
    (pairs : List (Str × Str)) (n v : Str)
    (hcd : cookie_dicts headers = Except.ok pairs)
    (hlast : lastVal pairs n = some v) :
    dictGet (jar_after_encode jar headers) n = some (PyVal.str v) := by
  simp only [jar_after_encode, encode_response, hcd]
  rw [dictGet_foldl_update, hlast]

/-- Witness for C7: Set-Cookie x=1 followed by Set-Cookie x=2 yields jar
entry x with value 2. -/
theorem c7_witness :
    dictGet
      (jar_after_encode []
        [("Set-Cookie".data, "x=1".data), ("Set-Cookie".data, "x=2".data)])
      "x".data = some (PyVal.str "2".data) :=
  c7_last_write_wins [] [("Set-Cookie".data, "x=1".data), ("Set-Cookie".data, "x=2".data)]
    [("x".data, "1".data), ("x".data, "2".data)] "x".data "2".data rfl rfl

/-- Claim C8: the reserved aggregate name zappa is removed from the
parsed cookie dict before it is handed to the wrapped application, so
the dict the application sees never maps zappa, whatever the client
sent. -/
theorem c8_aggregate_isolated (parsed : StrDict) :
    dictGetStr (call_request_phase parsed) "zappa".data = none := by
  simp only [call_request_phase]
  induction parsed with
  | nil => rfl
  | cons e rest ih =>
    rw [List.filter_cons]
    by_cases h : e.1 = "zappa".data
    · simp [h, ih]
    · simp [h, dictGetStr, ih]

/-- Claim C9: the body-override slot.  The slot is always cleared before
the response is returned; a staged non-empty override replaces every
chunk of the body; with nothing staged the body passes through
unchanged; and because the slot is cleared, a following request with the
resulting slot passes its body through untouched. -/
theorem c9_redirect_override (rc : Option Str) (resp resp2 : List Str) :
    ((apply_redirect rc resp).2 = none) ∧
    (∀ c, rc = some c → c.isEmpty = false →
      (apply_redirect rc resp).1 = resp.map (fun _ => c)) ∧
    (rc = none → (apply_redirect rc resp).1 = resp) ∧
    ((apply_redirect (apply_redirect rc resp).2 resp2).1 = resp2) := by
  cases rc with
  | none =>
    refine ⟨rfl, ?_, fun _ => rfl, rfl⟩
    intro c hc
    cases hc
  | some c0 =>
    refine ⟨rfl, ?_, ?_, rfl⟩
    · intro c hc he
      injection hc with hc0
      subst hc0
      simp [apply_redirect, he]
    · intro h
      cases h

theorem key_inj (jar : Jar) (hnd : (jar.map Prod.fst).Nodup)
    (a b : Str × PyVal) (ha : a ∈ jar) (hb : b ∈ jar) (hk : a.1 = b.1) : a = b := by
  induction jar with
  | nil => cases ha
  | cons e rest ih =>
    rw [List.map_cons, List.nodup_cons] at hnd
    rcases List.mem_cons.mp ha with rfl | ha2
    · rcases List.mem_cons.mp hb with rfl | hb2
      · rfl
      · exact absurd (hk ▸ List.mem_map_of_mem Prod.fst hb2) hnd.1
    · rcases List.mem_cons.mp hb with rfl | hb2
      · exact absurd (hk ▸ List.mem_map_of_mem Prod.fst ha2) hnd.1
      · exact ih hnd.2 ha2 hb2

theorem filterRun_ok_mem (p4 p2 : Str → Option Int) (now : Int) :
    ∀ (l : List (Str × PyVal)) (j : Jar),
      (∀ e ∈ l, exOk (entryExpires p4 p2 e.1 e.2) = true) →
      (l.foldl (filterStep p4 p2 now) (j, none)).2 = none ∧
      (∀ x, x ∈ (l.foldl (filterStep p4 p2 now) (j, none)).1 ↔
        (x ∈ j ∧ ∀ e ∈ l, shouldRemove p4 p2 now e = true → e.1 ≠ x.1)) := by
  intro l
  induction l with
  | nil =>
    intro j _
    simp
  | cons e rest ih =>
    intro j hok
    have hoke : exOk (entryExpires p4 p2 e.1 e.2) = true := hok e (by simp)
    have hokr : ∀ q ∈ rest, exOk (entryExpires p4 p2 q.1 q.2) = true :=
      fun q hq => hok q (by simp [hq])
    cases hE : entryExpires p4 p2 e.1 e.2 with
    | error err => rw [hE] at hoke; cases hoke
    | ok oexp =>
      cases oexp with
      | none =>
        have hstep : filterStep p4 p2 now (j, none) e = (j, none) := by
          simp [filterStep, hE]
        have hsr : shouldRemove p4 p2 now e = false := by simp [shouldRemove, hE]
        obtain ⟨ha, hb⟩ := ih j hokr
        rw [List.foldl_cons, hstep]
        refine ⟨ha, fun x => ?_⟩
        rw [hb x, List.forall_mem_cons, hsr]
        simp
      | some t =>
        by_cases ht : t < now
        · have hstep : filterStep p4 p2 now (j, none) e = (eraseKey j e.1, none) := by
            simp [filterStep, hE, ht]
          have hsr : shouldRemove p4 p2 now e = true := by
            simp [shouldRemove, hE, ht]
          obtain ⟨ha, hb⟩ := ih (eraseKey j e.1) hokr
          rw [List.foldl_cons, hstep]
          refine ⟨ha, fun x => ?_⟩
          rw [hb x, List.forall_mem_cons, hsr]
          have hbne : ((x.1 != e.1) = true) ↔ x.1 ≠ e.1 := by simp
          have hmem : x ∈ eraseKey j e.1 ↔ (x ∈ j ∧ e.1 ≠ x.1) := by
            rw [eraseKey, List.mem_filter, hbne]
            exact and_congr_right
              (fun _ => ⟨fun h hh => h hh.symm, fun h hh => h hh.symm⟩)
          rw [hmem]
          tauto
        · have hstep : filterStep p4 p2 now (j, none) e = (j, none) := by
            simp [filterStep, hE, ht]
          have hsr : shouldRemove p4 p2 now e = false := by
            simp [shouldRemove, hE, ht]
          obtain ⟨ha, hb⟩ := ih j hokr
          rw [List.foldl_cons, hstep]
          refine ⟨ha, fun x => ?_⟩
          rw [hb x, List.forall_mem_cons, hsr]
          simp

theorem filterRun_mem_of_safe (p4 p2 : Str → Option Int) (now : Int) :
    ∀ (l : List (Str × PyVal)) (acc : Jar × Option CookieError) (x : Str × PyVal),
      x ∈ acc.1 →
      (∀ e ∈ l, shouldRemove p4 p2 now e = true → e.1 ≠ x.1) →
      x ∈ (l.foldl (filterStep p4 p2 now) acc).1 := by
  intro l
  induction l with
  | nil =>
    intro acc x hx _
    simpa using hx
  | cons e rest ih =>
    intro acc x hx hsafe
    rw [List.foldl_cons]
    apply ih _ x _ (fun q hq => hsafe q (by simp [hq]))
    rcases acc with ⟨j, oerr⟩
    cases oerr with
    | some err => simpa [filterStep] using hx
    | none =>
      cases hE : entryExpires p4 p2 e.1 e.2 with
      | error err => simpa [filterStep, hE] using hx
      | ok oexp =>
        cases oexp with
        | none => simpa [filterStep, hE] using hx
        | some t =>
          by_cases ht : t < now
          · have hsr : shouldRemove p4 p2 now e = true := by
              simp [shouldRemove, hE, ht]
            have hne : e.1 ≠ x.1 := hsafe e (by simp) hsr
            simp only [filterStep, hE, ht, if_true, eraseKey]
            simp only [List.mem_filter]
            exact ⟨hx, by simpa [bne_iff_ne] using fun h => hne h.symm⟩
          · simpa [filterStep, hE, ht] using hx

theorem envString_eq_filter (jar : Jar) :
    cookie_environ_string jar
      = cookie_environ_string (jar.filter (fun e => e.2.isStr)) := by
  unfold cookie_environ_string
  congr 1
  induction jar with
  | nil => rfl
  | cons e rest ih =>
    obtain ⟨a, v⟩ := e
    cases v with
    | str s =>
      have hf : List.filter (fun e => e.2.isStr) ((a, PyVal.str s) :: rest)
          = (a, PyVal.str s) :: List.filter (fun e => e.2.isStr) rest := rfl
      have hm : List.filterMap envEntry ((a, PyVal.str s) :: rest)
          = (a ++ "=".data ++ s) :: List.filterMap envEntry rest := rfl
      have hm2 : List.filterMap envEntry
            ((a, PyVal.str s) :: List.filter (fun e => e.2.isStr) rest)
          = (a ++ "=".data ++ s) ::
              List.filterMap envEntry (List.filter (fun e => e.2.isStr) rest) := rfl
      rw [hm, hf, hm2, ih]
    | other m =>
      have hf : List.filter (fun e => e.2.isStr) ((a, PyVal.other m) :: rest)
          = List.filter (fun e => e.2.isStr) rest := rfl
      have hm : List.filterMap envEntry ((a, PyVal.other m) :: rest)
          = List.filterMap envEntry rest := rfl
      rw [hm, hf, ih]

/-- Claim C3: merging the Set-Cookie directives of a response into the
jar never drops an entry; a name present in the jar that no directive of
the response names keeps its prior value. -/
theorem c3_merge_preserves_untouched (jar : Jar) (headers : List (Str × Str)) (n : Str)
    (_hpres : dictGet jar n ≠ none)
    (hname : ∀ h ∈ headers, h.1 = "Set-Cookie".data → directiveName h.2 ≠ some n) :
    dictGet (jar_after_encode jar headers) n = dictGet jar n := by
  cases hcd : cookie_dicts headers with
  | error e => simp [jar_after_encode, encode_response, hcd]
  | ok pairs =>
    have hnone : lastVal pairs n = none := by
      apply lastVal_eq_none
      intro p hp hpn
      obtain ⟨h, hh, h1, h2⟩ := cookie_dicts_names headers pairs hcd p hp
      exact hname h hh h1 (by rw [h2, hpn])
    simp only [jar_after_encode, encode_response, hcd]
    rw [dictGet_foldl_update, hnone]

/-- Witness for C3: jar a=1, b=2 with the response setting only a=9
keeps b at 2. -/
theorem c3_witness :
    dictGet
      (jar_after_encode
        [("a".data, PyVal.str "1".data), ("b".data, PyVal.str "2".data)]
        [("Set-Cookie".data, "a=9".data)])
      "b".data = some (PyVal.str "2".data) := by
  rw [c3_merge_preserves_untouched
    [("a".data, PyVal.str "1".data), ("b".data, PyVal.str "2".data)]
    [("Set-Cookie".data, "a=9".data)] "b".data (by decide) (by decide)]
  rfl

theorem shouldRemove_true_iff (p4 p2 : Str → Option Int) (now : Int) (e : Str × PyVal) :
    shouldRemove p4 p2 now e = true ↔
      ∃ t : Int, entryExpires p4 p2 e.1 e.2 = Except.ok (some t) ∧ t < now := by
  unfold shouldRemove
  cases hE : entryExpires p4 p2 e.1 e.2 with
  | error err => simp
  | ok oexp =>
    cases oexp with
    | none => simp
    | some t => simp

/-- Claim C4 counterexample: the removal-iff-expired equivalence does
not hold for every jar and now.  In the jar with entries a (expires BAD,
a date neither parser accepts) and b (expires OLD, parsed as time 5),
with now 7, entry b carries an expires directive whose parsed timestamp
5 is strictly earlier than 7, yet b is still present after the filter:
the ValueError raised at entry a aborts the loop before b is examined. -/
theorem c4_counterexample :
    entryExpires (fun d => if d == "OLD".data then some (5 : Int) else none)
      (fun _ => none) "b".data (PyVal.str "v; expires=OLD".data)
      = Except.ok (some 5) ∧
    (5 : Int) < 7 ∧
    ("b".data, PyVal.str "v; expires=OLD".data) ∈
      (filter_expired_cookies
        (fun d => if d == "OLD".data then some (5 : Int) else none)
        (fun _ => none) 7
        [("a".data, PyVal.str "v; expires=BAD".data),
         ("b".data, PyVal.str "v; expires=OLD".data)]).1 := by
  refine ⟨rfl, by decide, by decide⟩

/-- Claim C4 as amended: for a jar with unique keys all of whose entries
have a readable expiry (the scan raises nothing), the filter removes an
entry exactly when its value yields an expires date strictly earlier
than now; entries whose scan yields no date, non-string values included,
are kept.  Without the readability proviso the equivalence fails: an
unparseable date elsewhere in the jar aborts the loop and an expired
entry survives, as the counterexample evaluates. -/
theorem c4_prune_iff_expired (p4 p2 : Str → Option Int) (now : Int) (jar : Jar)
    (hnd : (jar.map Prod.fst).Nodup)
    (hok : ∀ e ∈ jar, exOk (entryExpires p4 p2 e.1 e.2) = true)
    (n : Str) (v : PyVal) (hmem : (n, v) ∈ jar) :
    ((n, v) ∉ (filter_expired_cookies p4 p2 now jar).1 ↔
      ∃ t : Int, entryExpires p4 p2 n v = Except.ok (some t) ∧ t < now) := by
  obtain ⟨-, hb⟩ := filterRun_ok_mem p4 p2 now jar jar hok
  unfold filter_expired_cookies
  rw [hb (n, v)]
  constructor
  · intro hcon
    have hnall : ¬ ∀ e ∈ jar, shouldRemove p4 p2 now e = true → e.1 ≠ (n, v).1 :=
      fun hall => hcon ⟨hmem, hall⟩
    push_neg at hnall
    obtain ⟨e, he, hsr, hn⟩ := hnall
    have hee : e = (n, v) := key_inj jar hnd e (n, v) he hmem hn
    rw [hee] at hsr
    exact (shouldRemove_true_iff p4 p2 now (n, v)).mp hsr
  · rintro ⟨t, hE, ht⟩ ⟨-, hall⟩
    have hsr : shouldRemove p4 p2 now (n, v) = true :=
      (shouldRemove_true_iff p4 p2 now (n, v)).mpr ⟨t, hE, ht⟩
    exact hall (n, v) hmem hsr rfl

/-- Witness for the amended C4: with a parser accepting the date GOOD
as time 5 and now equal to 7, the entry a with an expires GOOD attribute
is removed, by the equivalence, while its hypotheses hold by
evaluation. -/
theorem c4_witness :
    ("a".data, PyVal.str "1; expires=GOOD".data) ∉
      (filter_expired_cookies
        (fun d => if d == "GOOD".data then some (5 : Int) else none)
        (fun _ => none) 7
        [("a".data, PyVal.str "1; expires=GOOD".data),
         ("b".data, PyVal.str "2".data)]).1 := by
  rw [c4_prune_iff_expired
    (fun d => if d == "GOOD".data then some (5 : Int) else none)
    (fun _ => none) 7
    [("a".data, PyVal.str "1; expires=GOOD".data), ("b".data, PyVal.str "2".data)]
    (by decide) (by decide) "a".data (PyVal.str "1; expires=GOOD".data) (by decide)]
  exact ⟨5, rfl, by decide⟩

/-- The expiry scan of the cookie c with value v; expires=DATE reduces
to the date parse of DATE. -/
theorem entryExpires_datecase (p4 p2 : Str → Option Int) :
    entryExpires p4 p2 "c".data (PyVal.str "v; expires=DATE".data)
      = (parseExpiresDate p4 p2 "DATE".data).map (fun t => some t) := rfl

/-- Claim C5 counterexample: a directive date neither strptime format
accepts does not leave the entry silently kept with no error; the
ValueError escapes the expiration filter (second component some
valueError). -/
theorem c5_counterexample :
    (filter_expired_cookies (fun _ => none) (fun _ => none) 0
      [("c".data, PyVal.str "v; expires=DATE".data)]).2
      = some CookieError.valueError := rfl

/-- Claim C5 as amended: the four-digit-year format is tried first and
wins when it parses, whatever the second parser would say; on its
failure the two-digit-year format is tried; when both fail the
ValueError propagates out of the expiration filter and the entry is left
in place, not silently treated as non-expiring. -/
theorem c5_amended_parse_order (p4 p2 : Str → Option Int) (now : Int) :
    (∀ t : Int, p4 "DATE".data = some t →
      entryExpires p4 p2 "c".data (PyVal.str "v; expires=DATE".data)
        = Except.ok (some t)) ∧
    (p4 "DATE".data = none → ∀ t : Int, p2 "DATE".data = some t →
      entryExpires p4 p2 "c".data (PyVal.str "v; expires=DATE".data)
        = Except.ok (some t)) ∧
    (p4 "DATE".data = none → p2 "DATE".data = none →
      filter_expired_cookies p4 p2 now [("c".data, PyVal.str "v; expires=DATE".data)]
        = ([("c".data, PyVal.str "v; expires=DATE".data)],
           some CookieError.valueError)) := by
  refine ⟨fun t h4 => ?_, fun h4 t h2 => ?_, fun h4 h2 => ?_⟩
  · rw [entryExpires_datecase]
    simp [parseExpiresDate, h4, Except.map]
  · rw [entryExpires_datecase]
    simp [parseExpiresDate, h4, h2, Except.map]
  · have hE : entryExpires p4 p2 "c".data (PyVal.str "v; expires=DATE".data)
        = Except.error CookieError.valueError := by
      rw [entryExpires_datecase]
      simp [parseExpiresDate, h4, h2, Except.map]
    simp [filter_expired_cookies, filterStep, hE]

/-- Witness for the amended C5 with both parsers failing: the filter
returns the untouched jar together with the raised ValueError. -/
theorem c5_witness :
    filter_expired_cookies (fun _ => none) (fun _ => none) 3
      [("c".data, PyVal.str "v; expires=DATE".data)]
      = ([("c".data, PyVal.str "v; expires=DATE".data)],
         some CookieError.valueError) :=
  (c5_amended_parse_order (fun _ => none) (fun _ => none) 3).2.2 rfl rfl

/-- Claim C10: an entry whose value is not a string is never deleted by
the expiration filter, whatever the parsers and now are, and the
semicolon-joined environ cookie string is built from the string-valued
entries alone, so the non-string entry does not appear in it while still
being present in the jar. -/
theorem c10_nonstring_entries (p4 p2 : Str → Option Int) (now : Int) (jar : Jar)
    (n : Str) (k : Nat) (hnd : (jar.map Prod.fst).Nodup)
    (hmem : (n, PyVal.other k) ∈ jar) :
    (n, PyVal.other k) ∈ (filter_expired_cookies p4 p2 now jar).1 ∧
    cookie_environ_string jar
      = cookie_environ_string (jar.filter (fun e => e.2.isStr)) := by
  refine ⟨?_, envString_eq_filter jar⟩
  unfold filter_expired_cookies
  apply filterRun_mem_of_safe p4 p2 now jar (jar, none) _ hmem
  intro e he hsr h1
  have hee : e = (n, PyVal.other k) := key_inj jar hnd e (n, PyVal.other k) he hmem h1
  rw [hee] at hsr
  simp [shouldRemove, entryExpires] at hsr

/-- Witness for C10 on a two-entry jar holding one non-string value. -/
theorem c10_witness :
    ("n".data, PyVal.other 0) ∈
      (filter_expired_cookies (fun _ => none) (fun _ => none) 0
        [("n".data, PyVal.other 0), ("m".data, PyVal.str "x".data)]).1 ∧
    cookie_environ_string [("n".data, PyVal.other 0), ("m".data, PyVal.str "x".data)]
      = cookie_environ_string
          (([("n".data, PyVal.other 0), ("m".data, PyVal.str "x".data)] : Jar).filter
            (fun e => e.2.isStr)) :=
  c10_nonstring_entries (fun _ => none) (fun _ => none) 0
    [("n".data, PyVal.other 0), ("m".data, PyVal.str "x".data)]
    "n".data 0 (by decide) (by decide)

/-- Witness for C9 at a staged override R over a two-chunk body. -/
theorem c9_witness :
    (apply_redirect (some "R".data) ["a".data, "b".data]).1 = ["R".data, "R".data] ∧
    (apply_redirect (some "R".data) ["a".data, "b".data]).2 = none ∧
    (apply_redirect (apply_redirect (some "R".data) ["a".data, "b".data]).2 ["z".data]).1
      = ["z".data] :=
  ⟨(c9_redirect_override (some "R".data) ["a".data, "b".data] ["z".data]).2.1
      "R".data rfl rfl,
   (c9_redirect_override (some "R".data) ["a".data, "b".data] ["z".data]).1,
   (c9_redirect_override (some "R".data) ["a".data, "b".data] ["z".data]).2.2.2⟩

end ZappaMiddleware
